import Mathlib

/-!
A verification development for the gallivant test-script engine.

The definitions below are a shallow embedding of the Rust sources:
  * `src/gallivant/src/syntax/expression.rs` (expression tree),
  * `src/gallivant/src/syntax/error.rs` (diagnostics),
  * `src/gallivant/src/syntax/parse.rs` (chumsky-combinator parser),
  * `src/gallivant/src/syntax/evaluate.rs` (AST encoder),
  * `src/gallivant/src/execution/measurement.rs` and
    `src/gallivant/src/execution/transaction.rs` (transaction engine),
  * `src/gallivant/src/interpreter.rs` (interpreter glue).

Machine integers (`u8`, `u32`, `usize`) are embedded as `Nat`, with `% 256`
(resp. a `< 2 ^ 32` bound) made explicit exactly where the Rust code casts
(`as u8`) or where `u32` parsing can overflow.  Rust panics — `panic!`,
`todo!`, `unwrap`/`expect` on failing values, and `debug_assert!` under the
debug profile — are embedded as an explicit `panicked` outcome carrying the
panic text (`todo!` renders as `not yet implemented`, plain `panic!()` as
`explicit panic`).  Byte strings (`str::as_bytes`) are embedded as the
UTF-8 bytes of the string.
-/

namespace Gallivant

/-- A half-open character range into the source text (`std::ops::Range<usize>`).
`stop` stands for the Rust field `end`, which is a reserved word here. -/
structure Span where
  start : Nat
  stop : Nat
deriving Repr, DecidableEq

/-- `ErrorNote` from `error.rs`: a note or help message attached to an error. -/
inductive ErrorNote where
  | note (msg : String)
  | help (msg : String)
deriving Repr, DecidableEq

/-- `ErrorReason` from `syntax/error.rs`. -/
inductive ErrorReason where
  | unexpected (span : Span) (expected : List (Option Char)) (found : Option Char)
  | unclosed
  | unrecognisedCommand (span : Span)
  | argType (span : Span) (expected : List String) (found : String)
  | argValue (span : Span) (value : Nat) (limits : Nat × Nat)
deriving Repr, DecidableEq

/-- `syntax::Error`: a reason plus ordered notes. -/
structure Error where
  reason : ErrorReason
  notes : List ErrorNote
deriving Repr, DecidableEq

/-- `Error::unrecognised_command`. -/
def Error.unrecognisedCommand (span : Span) : Error :=
  { reason := ErrorReason.unrecognisedCommand span, notes := [] }

/-- `Error::argument_value_size`. -/
def Error.argumentValueSize (span : Span) (value : Nat) (limits : Nat × Nat) : Error :=
  { reason := ErrorReason.argValue span value limits, notes := [] }

/-- `<Error as chumsky::error::Error>::expected_input_found`. -/
def Error.expectedInputFound (span : Span) (expected : List (Option Char))
    (found : Option Char) : Error :=
  { reason := ErrorReason.unexpected span expected found, notes := [] }

/-- `Error::with_help` (pushes a `Help` note). -/
def Error.withHelp (e : Error) (msg : String) : Error :=
  { e with notes := e.notes ++ [ErrorNote.help msg] }

/-- `ExprKind` from `syntax/expression.rs`. -/
inductive ExprKind where
  | string
  | uint
  | scriptComment
  | hpMode
  | comment
  | wait
  | openDialog
  | waitDialog
  | flush
  | protocol
  | print
  | setTimeFormat
  | setTime
  | setOption
  | tcuClose
  | tcuOpen
  | tcuTest
  | printerSet
  | printerTest
  | issueTest
  | testResult
  | usbOpen
  | usbClose
  | usbPrint
  | usbSetTimeFormat
  | usbSetTime
  | usbSetOption
  | usbPrinterSet
  | usbPrinterTest
deriving Repr, DecidableEq

/-- `ExprKind::name`. -/
def ExprKind.name : ExprKind → String
  | .string => "String"
  | .uint => "Unsigned Integer"
  | .scriptComment => "Script Comment"
  | .hpMode => "Command: 'HPMODE'"
  | .comment => "Command: 'COMMENT'"
  | .wait => "Command: 'WAIT'"
  | .openDialog => "Command: 'OPENDIALOG'"
  | .waitDialog => "Command: 'WAITDIALOG'"
  | .flush => "Command: 'FLUSH'"
  | .protocol => "Command: 'PROTOCOL'"
  | .print => "Command: 'PRINT'"
  | .setTimeFormat => "Command: 'SETTIMEFORMAT'"
  | .setTime => "Command: 'SETTIME'"
  | .setOption => "Command: 'SETOPTION'"
  | .tcuClose => "Command: 'TCUCLOSE'"
  | .tcuOpen => "Command: 'TCUOPEN'"
  | .tcuTest => "Command: 'TCUTEST'"
  | .printerSet => "Command: 'PRINTERSET'"
  | .printerTest => "Command: 'PRINTERTEST'"
  | .issueTest => "Command: 'ISSUETEST'"
  | .testResult => "Command: 'TESTRESULT'"
  | .usbOpen => "Command: 'USBOPEN'"
  | .usbClose => "Command: 'USBCLOSE'"
  | .usbPrint => "Command: 'USBPRINT'"
  | .usbSetTimeFormat => "Command: 'USBSETTIMEFORMAT'"
  | .usbSetTime => "Command: 'USBSETTIME'"
  | .usbSetOption => "Command: 'USBSETOPTION'"
  | .usbPrinterSet => "Command: 'USBPRINTERSET'"
  | .usbPrinterTest => "Command: 'USBPRINTERTEST'"

/-- `Error::argument_type` (maps expected kinds to their names). -/
def Error.argumentType (span : Span) (expected : List ExprKind) (found : ExprKind) : Error :=
  { reason := ErrorReason.argType span (expected.map ExprKind.name) found.name
    notes := [] }

mutual
/-- `Expr` from `syntax/expression.rs`.  `Box<ParsedExpr>` children are plain
`ParsedExpr` here; `mn`/`mx` stand for the Rust field names `min`/`max`. -/
inductive Expr : Type where
  | string (s : String)
  | uint (n : Nat)
  | scriptComment (s : String)
  | hpMode
  | comment (arg : ParsedExpr)
  | wait (arg : ParsedExpr)
  | openDialog (arg : ParsedExpr)
  | waitDialog (arg : ParsedExpr)
  | flush
  | protocol
  | print (args : List ParsedExpr)
  | setTimeFormat (arg : ParsedExpr)
  | setTime
  | setOption (option setting : ParsedExpr)
  | tcuClose (arg : ParsedExpr)
  | tcuOpen (arg : ParsedExpr)
  | tcuTest (channel mn mx retries message : ParsedExpr)
  | printerSet (arg : ParsedExpr)
  | printerTest (channel mn mx retries message : ParsedExpr)
  | issueTest (arg : ParsedExpr)
  | testResult (mn mx message : ParsedExpr)
  | usbOpen
  | usbClose
  | usbPrint (args : List ParsedExpr)
  | usbSetTimeFormat (arg : ParsedExpr)
  | usbSetTime
  | usbSetOption (option setting : ParsedExpr)
  | usbPrinterSet (arg : ParsedExpr)
  | usbPrinterTest (channel mn mx retries message : ParsedExpr)

/-- `ParsedExpr`: an expression together with its source span. -/
inductive ParsedExpr : Type where
  | mk (expr : Expr) (span : Span)
end

/-- `ParsedExpr::expression` (spelled `expresssion` in `parse.rs`). -/
def ParsedExpr.expression : ParsedExpr → Expr
  | .mk e _ => e

/-- `ParsedExpr::span`. -/
def ParsedExpr.span : ParsedExpr → Span
  | .mk _ sp => sp

mutual
/-- Derived `PartialEq` of `Expr`: children compared through
`ParsedExpr.beq`, which ignores spans. -/
def Expr.beq : Expr → Expr → Bool
  | .string a, .string b => a == b
  | .uint a, .uint b => a == b
  | .scriptComment a, .scriptComment b => a == b
  | .hpMode, .hpMode => true
  | .comment a, .comment b => a.beq b
  | .wait a, .wait b => a.beq b
  | .openDialog a, .openDialog b => a.beq b
  | .waitDialog a, .waitDialog b => a.beq b
  | .flush, .flush => true
  | .protocol, .protocol => true
  | .print a, .print b => ParsedExpr.beqList a b
  | .setTimeFormat a, .setTimeFormat b => a.beq b
  | .setTime, .setTime => true
  | .setOption a b, .setOption c d => a.beq c && b.beq d
  | .tcuClose a, .tcuClose b => a.beq b
  | .tcuOpen a, .tcuOpen b => a.beq b
  | .tcuTest a b c d e, .tcuTest a' b' c' d' e' =>
      a.beq a' && b.beq b' && c.beq c' && d.beq d' && e.beq e'
  | .printerSet a, .printerSet b => a.beq b
  | .printerTest a b c d e, .printerTest a' b' c' d' e' =>
      a.beq a' && b.beq b' && c.beq c' && d.beq d' && e.beq e'
  | .issueTest a, .issueTest b => a.beq b
  | .testResult a b c, .testResult a' b' c' => a.beq a' && b.beq b' && c.beq c'
  | .usbOpen, .usbOpen => true
  | .usbClose, .usbClose => true
  | .usbPrint a, .usbPrint b => ParsedExpr.beqList a b
  | .usbSetTimeFormat a, .usbSetTimeFormat b => a.beq b
  | .usbSetTime, .usbSetTime => true
  | .usbSetOption a b, .usbSetOption c d => a.beq c && b.beq d
  | .usbPrinterSet a, .usbPrinterSet b => a.beq b
  | .usbPrinterTest a b c d e, .usbPrinterTest a' b' c' d' e' =>
      a.beq a' && b.beq b' && c.beq c' && d.beq d' && e.beq e'
  | _, _ => false

/-- Pointwise `Expr` list equality (derived `PartialEq` of `Vec<ParsedExpr>`). -/
def ParsedExpr.beqList : List ParsedExpr → List ParsedExpr → Bool
  | [], [] => true
  | a :: as', b :: bs' => a.beq b && ParsedExpr.beqList as' bs'
  | _, _ => false

/-- Manual `PartialEq` of `ParsedExpr`: spans are ignored in equality. -/
def ParsedExpr.beq : ParsedExpr → ParsedExpr → Bool
  | .mk e _, .mk f _ => e.beq f
end

/-!
## Parser combinator layer

A small executable model of the chumsky 0.x combinator subset used by
`syntax/parse.rs`.  Parsers run over a list of characters with an absolute
offset (spans are half-open character ranges, matching the ASCII scripts the
grammar accepts).  A reply is either a success (carrying the rest of the
input and any *emitted* — non-fatal — validation errors), a fatal parse
error, or a Rust panic raised inside a `map` closure.  Alternation
backtracks on fatal errors, as chumsky's `choice`/`or` does; when every
alternative fails the first error is kept (`Error::merge` keeps `self`).
-/

/-- Remaining input and absolute offset of its first character. -/
structure PState where
  offset : Nat
  input : List Char
deriving Repr

/-- Outcome of running a parser. -/
inductive PReply (α : Type) where
  | ok (val : α) (st : PState) (emitted : List Error)
  | fail (err : Error)
  | panicked (msg : String)

/-- A parser from characters to `α`. -/
def CParser (α : Type) : Type := PState → PReply α

namespace CParser

/-- `Parser::map`. -/
def pmap (p : CParser α) (f : α → β) : CParser β := fun st =>
  match p st with
  | .ok a st1 e => .ok (f a) st1 e
  | .fail e => .fail e
  | .panicked m => .panicked m

/-- `Parser::map` with a closure that may panic (e.g. `unwrap`). -/
def mapOrPanic (p : CParser α) (f : α → Except String β) : CParser β := fun st =>
  match p st with
  | .ok a st1 e =>
      match f a with
      | .ok b => .ok b st1 e
      | .error m => .panicked m
  | .fail e => .fail e
  | .panicked m => .panicked m

/-- `Parser::then`: sequence two parsers, pairing their outputs. -/
def pthen (p : CParser α) (q : CParser β) : CParser (α × β) := fun st =>
  match p st with
  | .ok a st1 e1 =>
      match q st1 with
      | .ok b st2 e2 => .ok (a, b) st2 (e1 ++ e2)
      | .fail e => .fail e
      | .panicked m => .panicked m
  | .fail e => .fail e
  | .panicked m => .panicked m

/-- `Parser::ignore_then`. -/
def ignoreThen (p : CParser α) (q : CParser β) : CParser β :=
  (p.pthen q).pmap Prod.snd

/-- `Parser::then_ignore`. -/
def thenIgnore (p : CParser α) (q : CParser β) : CParser α :=
  (p.pthen q).pmap Prod.fst

/-- `Parser::or` / binary `choice`: PEG-style full backtracking on fatal
errors; on double failure the first error is kept. -/
def orElse (p q : CParser α) : CParser α := fun st =>
  match p st with
  | .fail e =>
      match q st with
      | .fail _ => .fail e
      | r => r
  | r => r

/-- n-ary `choice`, tried left to right. -/
def choiceL (ps : List (CParser α)) (deflt : Error) : CParser α :=
  match ps with
  | [] => fun _ => .fail deflt
  | [p] => p
  | p :: rest => p.orElse (choiceL rest deflt)

/-- `filter`: consume one character satisfying the predicate. -/
def filterCh (f : Char → Bool) : CParser Char := fun st =>
  match st.input with
  | [] => .fail (Error.expectedInputFound ⟨st.offset, st.offset⟩ [] none)
  | c :: rest =>
      if f c then .ok c ⟨st.offset + 1, rest⟩ []
      else .fail (Error.expectedInputFound ⟨st.offset, st.offset + 1⟩ [] (some c))

/-- `just(c)`: consume exactly the character `c`. -/
def justCh (c : Char) : CParser Char := fun st =>
  match st.input with
  | [] => .fail (Error.expectedInputFound ⟨st.offset, st.offset⟩ [some c] none)
  | d :: rest =>
      if d = c then .ok c ⟨st.offset + 1, rest⟩ []
      else .fail (Error.expectedInputFound ⟨st.offset, st.offset + 1⟩ [some c] (some d))

/-- Fuelled loop behind `repeated`. -/
def repeatedAux (p : CParser α) : Nat → CParser (List α)
  | 0 => fun st => .ok [] st []
  | fuel + 1 => fun st =>
      match p st with
      | .fail _ => .ok [] st []
      | .panicked m => .panicked m
      | .ok a st1 e1 =>
          if st1.offset ≤ st.offset then .ok [a] st1 e1
          else
            match repeatedAux p fuel st1 with
            | .ok as' st2 e2 => .ok (a :: as') st2 (e1 ++ e2)
            | .fail e => .fail e
            | .panicked m => .panicked m

/-- `Parser::repeated`: zero or more, greedy, backtracking out of the last
failed attempt.  The fuel is bounded by the remaining input since every
iteration of the grammar's repeated parsers consumes at least one character. -/
def repeated (p : CParser α) : CParser (List α) := fun st =>
  repeatedAux p (st.input.length + 1) st

/-- Fuelled loop behind `separated_by`: parses `(sep item)*` after a first
item, backtracking out of a trailing separator. -/
def sepByAux (p : CParser α) (sep : CParser β) : Nat → CParser (List α)
  | 0 => fun st => .ok [] st []
  | fuel + 1 => fun st =>
      match sep st with
      | .fail _ => .ok [] st []
      | .panicked m => .panicked m
      | .ok _ st1 e1 =>
          match p st1 with
          | .fail _ => .ok [] st []
          | .panicked m => .panicked m
          | .ok a st2 e2 =>
              if st2.offset ≤ st.offset then .ok [a] st2 (e1 ++ e2)
              else
                match sepByAux p sep fuel st2 with
                | .ok as' st3 e3 => .ok (a :: as') st3 (e1 ++ e2 ++ e3)
                | .fail e => .fail e
                | .panicked m => .panicked m

/-- `Parser::separated_by`: zero or more items separated by `sep`, no
leading or trailing separator. -/
def sepBy (p : CParser α) (sep : CParser β) : CParser (List α) := fun st =>
  match p st with
  | .fail _ => .ok [] st []
  | .panicked m => .panicked m
  | .ok a st1 e1 =>
      match sepByAux p sep (st1.input.length + 1) st1 with
      | .ok as' st2 e2 => .ok (a :: as') st2 (e1 ++ e2)
      | .fail e => .fail e
      | .panicked m => .panicked m

/-- `Parser::rewind`: parse but reset the input state on success. -/
def rewind (p : CParser α) : CParser α := fun st =>
  match p st with
  | .ok a _ e => .ok a st e
  | r => r

/-- `Parser::map_with_span`: pair the output with the span it consumed. -/
def mapWithSpan (p : CParser α) (f : α → Span → β) : CParser β := fun st =>
  match p st with
  | .ok a st1 e => .ok (f a ⟨st.offset, st1.offset⟩) st1 e
  | .fail e => .fail e
  | .panicked m => .panicked m

/-- `Parser::validate`: emit (non-fatal) errors computed from the output and
its span, keeping the output. -/
def validate (p : CParser α) (f : α → Span → List Error) : CParser α := fun st =>
  match p st with
  | .ok a st1 e => .ok a st1 (e ++ f a ⟨st.offset, st1.offset⟩)
  | r => r

/-- `Parser::map_err` on the fatal error. -/
def mapErr (p : CParser α) (f : Error → Error) : CParser α := fun st =>
  match p st with
  | .fail e => .fail (f e)
  | r => r

/-- `end()`: succeed only at end of input. -/
def endOfInput : CParser Unit := fun st =>
  match st.input with
  | [] => .ok () st []
  | c :: _ => .fail (Error.expectedInputFound ⟨st.offset, st.offset⟩ [none] (some c))

/-- Fuelled loop behind `take_until`. -/
def takeUntilAux (stop : CParser β) : Nat → CParser (List Char × β)
  | 0 => fun _ => .panicked "take_until: out of fuel"
  | fuel + 1 => fun st =>
      match stop st with
      | .ok b st1 e => .ok ([], b) st1 e
      | .panicked m => .panicked m
      | .fail _ =>
          match st.input with
          | [] => .fail (Error.expectedInputFound ⟨st.offset, st.offset⟩ [] none)
          | c :: rest =>
              match takeUntilAux stop fuel ⟨st.offset + 1, rest⟩ with
              | .ok (cs, b) st2 e => .ok (c :: cs, b) st2 e
              | .fail e => .fail e
              | .panicked m => .panicked m

/-- `take_until(stop)`: consume characters until `stop` succeeds, returning
them together with `stop`'s output. -/
def takeUntil (stop : CParser β) : CParser (List Char × β) := fun st =>
  takeUntilAux stop (st.input.length + 1) st

end CParser

/-!
## The script grammar (`syntax/parse.rs`)
-/

/-- `Character::is_inline_whitespace`: whitespace that is not part of a
newline (space and tab for the ASCII scripts the grammar handles). -/
def isInlineWhitespace (c : Char) : Bool :=
  c = ' ' || c = '\t'

/-- `fn whitespace()`: zero or more inline whitespace characters. -/
def whitespaceInline : CParser Unit :=
  ((CParser.filterCh isInlineWhitespace).repeated).pmap fun _ => ()

/-- `Parser::padded_by(whitespace())`: inline whitespace on both sides. -/
def CParser.padBy (p : CParser α) : CParser α :=
  (whitespaceInline.ignoreThen p).thenIgnore whitespaceInline

/-- `char::is_digit(radix)` for radix 10 or 16. -/
def isDigitRadix (radix : Nat) (c : Char) : Bool :=
  match digitValue c with
  | some v => v < radix
  | none => false
where
  /-- `char::to_digit`: the numeric value of an ASCII digit or letter. -/
  digitValue (c : Char) : Option Nat :=
    if c.isDigit then some (c.toNat - 48)
    else if 'a' ≤ c && c ≤ 'z' then some (c.toNat - 97 + 10)
    else if 'A' ≤ c && c ≤ 'Z' then some (c.toNat - 65 + 10)
    else none

/-- `fn uint(radix)`: one or more digits in the radix, leading zeroes
allowed, collected into a string. -/
def uintLexeme (radix : Nat) : CParser (List Char) :=
  (CParser.filterCh (isDigitRadix radix)).pthen
      ((CParser.filterCh (isDigitRadix radix)).repeated)
    |>.pmap fun (c, cs) => c :: cs

/-- The numeric value of a digit string in the given radix. -/
def natOfDigits (radix : Nat) (ds : List Char) : Nat :=
  ds.foldl (fun acc c => acc * radix + (isDigitRadix.digitValue c).getD 0) 0

/-- `char::is_ascii_hexdigit`. -/
def isAsciiHexdigit (c : Char) : Bool :=
  c.isDigit || ('a' ≤ c && c ≤ 'f') || ('A' ≤ c && c ≤ 'F')

/-- `text::ident()`: `[A-Za-z_][A-Za-z0-9_]*`. -/
def identLexeme : CParser String :=
  (CParser.filterCh fun c => c.isAlpha || c = '_').pthen
      ((CParser.filterCh fun c => c.isAlphanum || c = '_').repeated)
    |>.pmap fun (c, cs) => String.mk (c :: cs)

/-- `text::keyword(kw)`: an identifier that must equal `kw` exactly. -/
def keyword (kw : String) : CParser Unit := fun st =>
  match identLexeme st with
  | .ok s st1 _ =>
      if s = kw then .ok () st1 []
      else .fail (Error.expectedInputFound ⟨st.offset, st1.offset⟩ [] none)
  | .fail e => .fail e
  | .panicked m => .panicked m

/-- A character that `text::newline()` accepts on its own. -/
def isNewlineChar (c : Char) : Bool :=
  c = '\n' || c = '\x0b' || c = '\x0c' || c = '\r' ||
    c = '\u0085' || c = '\u2028' || c = '\u2029'

/-- `text::newline()`: `\r\n` or a single newline character. -/
def newlineLexeme : CParser Unit :=
  (((CParser.justCh '\r').ignoreThen (CParser.justCh '\n')).pmap fun _ => ()).orElse
    ((CParser.filterCh isNewlineChar).pmap fun _ => ())

/-- `From<&Expr> for ExprKind`. -/
def Expr.kind : Expr → ExprKind
  | .string _ => .string
  | .uint _ => .uint
  | .scriptComment _ => .scriptComment
  | .hpMode => .hpMode
  | .comment _ => .comment
  | .wait _ => .wait
  | .openDialog _ => .openDialog
  | .waitDialog _ => .waitDialog
  | .flush => .flush
  | .protocol => .protocol
  | .print _ => .print
  | .setTimeFormat _ => .setTimeFormat
  | .setTime => .setTime
  | .setOption _ _ => .setOption
  | .tcuClose _ => .tcuClose
  | .tcuOpen _ => .tcuOpen
  | .tcuTest _ _ _ _ _ => .tcuTest
  | .printerSet _ => .printerSet
  | .printerTest _ _ _ _ _ => .printerTest
  | .issueTest _ => .issueTest
  | .testResult _ _ _ => .testResult
  | .usbOpen => .usbOpen
  | .usbClose => .usbClose
  | .usbPrint _ => .usbPrint
  | .usbSetTimeFormat _ => .usbSetTimeFormat
  | .usbSetTime => .usbSetTime
  | .usbSetOption _ _ => .usbSetOption
  | .usbPrinterSet _ => .usbPrinterSet
  | .usbPrinterTest _ _ _ _ _ => .usbPrinterTest

/-- `fn command_with_param`: keyword, whitespace, one parameter. -/
def commandWithParam (cmd : String) (param : CParser ParsedExpr) : CParser ParsedExpr :=
  ((keyword cmd).pthen whitespaceInline).ignoreThen param

/-- `fn command_with_2_params`: keyword, then two comma-separated parameters. -/
def commandWith2Params (cmd : String) (p1 p2 : CParser ParsedExpr) :
    CParser (ParsedExpr × ParsedExpr) :=
  (((keyword cmd).pthen whitespaceInline).ignoreThen p1).thenIgnore
      ((CParser.justCh ',').padBy)
    |>.pthen p2

/-- `fn command_with_5_params`: keyword, then five comma-separated parameters. -/
def commandWith5Params (cmd : String) (p : CParser ParsedExpr) :
    CParser (ParsedExpr × ParsedExpr × ParsedExpr × ParsedExpr × ParsedExpr) :=
  ((((((((keyword cmd).pthen whitespaceInline).ignoreThen p).thenIgnore
      ((CParser.justCh ',').padBy)).pthen p).thenIgnore
      ((CParser.justCh ',').padBy)).pthen p |>.thenIgnore
      ((CParser.justCh ',').padBy)).pthen p |>.thenIgnore
      ((CParser.justCh ',').padBy)).pthen p
    |>.pmap fun ((((p1, p2), p3), p4), p5) => (p1, p2, p3, p4, p5)

/-- `fn command_with_params`: keyword, whitespace, a parameter list. -/
def commandWithParams (cmd : String) (params : CParser (List ParsedExpr)) :
    CParser (List ParsedExpr) :=
  ((keyword cmd).pthen whitespaceInline).ignoreThen params

/-- Placeholder error used by the empty tail of an n-ary `choice`. -/
def choiceDefaultErr : Error :=
  Error.expectedInputFound ⟨0, 0⟩ [] none

/-- `fn parser()`: the whole grammar, as one parser from source text to the
list of parsed expressions. -/
def scriptGrammar : CParser (List ParsedExpr) :=
  let stringLit : CParser Expr :=
    ((CParser.justCh '"').ignoreThen
        ((CParser.filterCh fun c => c ≠ '"').repeated)).thenIgnore (CParser.justCh '"')
      |>.pmap fun cs => Expr.string (String.mk cs)
  let uintDec : CParser Expr :=
    (uintLexeme 10).mapOrPanic fun ds =>
      -- `s.parse::<u32>().unwrap()`: panics when the value overflows `u32`.
      let n := natOfDigits 10 ds
      if n < 2 ^ 32 then .ok (Expr.uint n)
      else .error "called Result::unwrap() on an Err value: ParseIntError"
  let uintHex : CParser Expr :=
    ((CParser.justCh '$').ignoreThen (uintLexeme 16)).mapOrPanic fun ds =>
      -- `u32::from_str_radix(&s, 16).unwrap()`: panics on overflow.
      let n := natOfDigits 16 ds
      if n < 2 ^ 32 then .ok (Expr.uint n)
      else .error "called Result::unwrap() on an Err value: ParseIntError"
  let uintLit : CParser Expr := uintDec.orElse uintHex
  let exprVal : CParser ParsedExpr :=
    ((stringLit.orElse uintLit).mapWithSpan ParsedExpr.mk).padBy
  let multiExpr : CParser (List ParsedExpr) :=
    exprVal.sepBy ((CParser.justCh ',').padBy)
  let stringArg : CParser ParsedExpr :=
    exprVal.validate fun arg span =>
      match arg.expression with
      | .string _ => []
      | found =>
          [(Error.argumentType span [ExprKind.string] found.kind).withHelp
            "If the argument was intended to be a string it should be delimited by \"\""]
  let uintArg : CParser ParsedExpr :=
    exprVal.validate fun arg span =>
      match arg.expression with
      | .uint _ => []
      | found =>
          let base := Error.argumentType span [ExprKind.uint] found.kind
          match found with
          | .string s =>
              if s.data.all Char.isDigit then
                [base.withHelp
                  "If the argument was intended to be an unsigned integer, try removing the enclosing \"\""]
              else if s.startsWith ("$") && (s.data.drop 1).all isAsciiHexdigit then
                [base.withHelp
                  "If the argument was intended to be a hex unsigned integer, try removing the enclosing \"\""]
              else [base]
          | _ => [base]
  let byteArg : CParser ParsedExpr :=
    uintArg.validate fun arg span =>
      match arg.expression with
      | .uint v => if v > 255 then [Error.argumentValueSize span v (0, 255)] else []
      | _ => []
  let scriptComment : CParser ParsedExpr :=
    (((CParser.justCh ';').ignoreThen
          (CParser.takeUntil ((newlineLexeme.orElse CParser.endOfInput).rewind)))
        |>.pmap fun (cs, _) => Expr.scriptComment (String.mk cs))
      |>.mapWithSpan ParsedExpr.mk |>.padBy
  let command : CParser ParsedExpr :=
    (CParser.choiceL
      [ (keyword "HPMODE").pmap fun _ => Expr.hpMode
      , (commandWithParam "COMMENT" stringArg).pmap Expr.comment
      , (commandWithParam "WAIT" uintArg).pmap Expr.wait
      , (commandWithParam "OPENDIALOG" stringArg).pmap Expr.openDialog
      , (commandWithParam "WAITDIALOG" stringArg).pmap Expr.waitDialog
      , (keyword "FLUSH").pmap fun _ => Expr.flush
      , (keyword "PROTOCOL").pmap fun _ => Expr.protocol
      , (commandWithParams "PRINT" multiExpr).pmap Expr.print
      , (commandWithParam "SETTIMEFORMAT" byteArg).pmap Expr.setTimeFormat
      , (keyword "SETTIME").pmap fun _ => Expr.setTime
      , (commandWith2Params "SETOPTION" byteArg byteArg).pmap fun (o, s) =>
          Expr.setOption o s
      , (commandWithParam "TCUCLOSE" byteArg).pmap Expr.tcuClose
      , (commandWithParam "TCUOPEN" byteArg).pmap Expr.tcuOpen
      , (commandWith5Params "TCUTEST" exprVal).pmap fun (c, mn, mx, r, m) =>
          Expr.tcuTest c mn mx r m
      , (commandWithParam "PRINTERSET" byteArg).pmap Expr.printerSet
      , (commandWith5Params "PRINTERTEST" exprVal).pmap fun (c, mn, mx, r, m) =>
          Expr.printerTest c mn mx r m
      , (keyword "USBOPEN").pmap fun _ => Expr.usbOpen
      , (keyword "USBCLOSE").pmap fun _ => Expr.usbClose
      , (commandWithParams "USBPRINT" multiExpr).pmap Expr.usbPrint
      , (commandWithParam "USBSETTIMEFORMAT" byteArg).pmap Expr.usbSetTimeFormat
      , (keyword "USBSETTIME").pmap fun _ => Expr.usbSetTime
      , (commandWith2Params "USBSETOPTION" byteArg byteArg).pmap fun (o, s) =>
          Expr.usbSetOption o s
      , (commandWithParam "USBPRINTERSET" byteArg).pmap Expr.usbPrinterSet
      , (commandWith5Params "USBPRINTERTEST" exprVal).pmap fun (c, mn, mx, r, m) =>
          Expr.usbPrinterTest c mn mx r m
      ] choiceDefaultErr)
      |>.mapWithSpan ParsedExpr.mk |>.padBy
  let fullPad : CParser Unit := ((CParser.filterCh Char.isWhitespace).repeated).pmap fun _ => ()
  let items : CParser (List ParsedExpr) :=
    (CParser.choiceL [command, exprVal, scriptComment] choiceDefaultErr).sepBy
      (newlineLexeme.repeated)
  (((fullPad.ignoreThen items).thenIgnore fullPad).thenIgnore CParser.endOfInput).mapErr
    fun e =>
      match e.reason with
      | .unexpected sp _ _ => Error.unrecognisedCommand sp
      | _ => e

/-- Outcome of `parse_from_str`: a tree, a non-empty error list, or a Rust
panic raised while parsing. -/
inductive ParseOutcome where
  | ok (exprs : List ParsedExpr)
  | errs (errors : List Error)
  | panicked (msg : String)

/-- `parse_from_str`, including chumsky's `Parser::parse` contract: the tree
is returned only when no error (fatal or emitted) was produced. -/
def parseFromStr (script : String) : ParseOutcome :=
  match scriptGrammar ⟨0, script.data⟩ with
  | .ok v _ emitted => if emitted.isEmpty then .ok v else .errs emitted
  | .fail e => .errs [e]
  | .panicked m => .panicked m

/-- `true` when the parse produced a tree equal (spans ignored, as in the
Rust `PartialEq`) to the expected list. -/
def ParseOutcome.producesTree (o : ParseOutcome) (l : List ParsedExpr) : Bool :=
  match o with
  | .ok l' => ParsedExpr.beqList l' l
  | _ => false

/-- `true` when parsing panicked. -/
def ParseOutcome.isPanicked : ParseOutcome → Bool
  | .panicked _ => true
  | _ => false

/-!
## Execution layer (`execution/measurement.rs`, `execution/transaction.rs`)
-/

/-- `RangeInclusive<u32>`: the inclusive range `start..=stop` (`stop` stands
for the Rust accessor `end`). -/
structure RangeInc where
  start : Nat
  stop : Nat
deriving Repr, DecidableEq

/-- `RangeInclusive::contains`. -/
def RangeInc.containsB (r : RangeInc) (m : Nat) : Bool :=
  decide (r.start ≤ m) && decide (m ≤ r.stop)

/-- `MeasurementTest` from `execution/measurement.rs`. -/
structure MeasurementTest where
  expected : RangeInc
  retries : Nat
  failureMessage : String
deriving Repr, DecidableEq

/-- `FailedTest` from `execution/measurement.rs`. -/
structure FailedTest where
  measurement : Nat
  expected : RangeInc
  message : String
deriving Repr, DecidableEq

/-- `measurement::Error`. -/
inductive MeasurementError where
  | testFailed (t : FailedTest)
  | testFailedRetryable (t : MeasurementTest)
  | parseError
deriving Repr, DecidableEq

/-- `MeasurementTest::test`: compare a measurement against the inclusive
range; on failure either decrement the retry counter (retryable) or build a
`FailedTest` carrying the measurement, range and message. -/
def MeasurementTest.test (t : MeasurementTest) (measurement : Nat) :
    Except MeasurementError Unit :=
  let testSuccess := t.expected.containsB measurement
  if !testSuccess then
    if t.retries > 0 then
      .error (.testFailedRetryable { t with retries := t.retries - 1 })
    else
      .error (.testFailed ⟨measurement, t.expected, t.failureMessage⟩)
  else
    .ok ()

/-- Bytes a device sends, embedded as naturals below 256. -/
abbrev Byte := Nat

/-- The UTF-8 encoding of one character (one byte below U+0080, up to four
bytes beyond; `Char` excludes surrogates, so every scalar value has one). -/
def utf8Bytes (c : Char) : List Byte :=
  let n := c.toNat
  if n < 0x80 then [n]
  else if n < 0x800 then
    [0xC0 + n / 64, 0x80 + n % 64]
  else if n < 0x10000 then
    [0xE0 + n / 4096, 0x80 + n / 64 % 64, 0x80 + n % 64]
  else
    [0xF0 + n / 0x40000, 0x80 + n / 4096 % 64, 0x80 + n / 64 % 64, 0x80 + n % 64]

/-- `str::as_bytes`: the UTF-8 bytes of the string. -/
def strBytes (s : String) : List Byte :=
  (s.data.map utf8Bytes).flatten

/-- The ASCII code of an uppercase hexadecimal digit. -/
def hexDigitCode (n : Nat) : Nat :=
  if n < 10 then 48 + n else 55 + n

/-- Fuelled digit expansion behind `fmt02X`. -/
def hexDigitsUpper : Nat → Nat → List Byte
  | 0, n => [hexDigitCode (n % 16)]
  | fuel + 1, n =>
      if n < 16 then [hexDigitCode n]
      else hexDigitsUpper fuel (n / 16) ++ [hexDigitCode (n % 16)]

/-- `format!("{:02X}", n)`: uppercase hex, zero-padded to at least two
digits. -/
def fmt02X (n : Nat) : List Byte :=
  if n < 16 then [48, hexDigitCode n] else hexDigitsUpper n n

/-- `fn tcu_format_byte(byte: u8)`: the two ASCII hex characters of a byte
(callers pass the Rust `as u8` cast as an explicit `% 256`). -/
def tcuFormatByte (b : Nat) : List Byte :=
  fmt02X b

/-- `flat_map(tcu_format_byte)`. -/
def hexExpand (bs : List Byte) : List Byte :=
  (bs.map tcuFormatByte).flatten

/-- `<Measurement as TryFrom<&[u8]>>::try_from`: decode the bytes as text,
keep the characters before the first `\r`, and parse them as hexadecimal
into a `u32`.  Decode failure, an empty or non-hex digit string, and `u32`
overflow all produce `ParseError` (a lone leading `+`, which
`from_str_radix` would accept, never occurs in the protocol). -/
def measurementTryFrom (bytes : List Byte) : Except MeasurementError Nat :=
  if bytes.all (· < 128) then
    let chars := (bytes.map Char.ofNat).takeWhile (· ≠ '\r')
    if chars.isEmpty || !chars.all isAsciiHexdigit then .error .parseError
    else
      let n := natOfDigits 16 chars
      if n < 2 ^ 32 then .ok n else .error .parseError
  else .error .parseError

/-- `Device` from `execution/transaction.rs`. -/
inductive Device where
  | tcu
  | printer
deriving Repr, DecidableEq

/-- `Transaction` from `execution/transaction.rs`. -/
structure Transaction where
  expression : ParsedExpr
  txbytes : List Byte
  txcomplete : Bool
  device : Device
  response : List Byte
  test : Option MeasurementTest

/-- `Transaction::with_tcu`. -/
def Transaction.withTcu (expression : ParsedExpr) (txbytes : List Byte)
    (test : Option MeasurementTest) : Transaction :=
  { expression, txbytes, txcomplete := false, device := .tcu, response := [], test }

/-- `Transaction::with_printer`. -/
def Transaction.withPrinter (expression : ParsedExpr) (txbytes : List Byte)
    (test : Option MeasurementTest) : Transaction :=
  { expression, txbytes, txcomplete := false, device := .printer, response := [], test }

/-- `TransactionStatus`. -/
inductive TransactionStatus where
  | success
  | ongoing (t : Transaction)

/-!
## Frontend requests and evaluator state
-/

/-- Modelled from the spec: the `Dialog` declaration of the `execution`
module is not under `src/`.  §6 gives the two kinds. -/
inductive Dialog where
  | notification
  | manualInput
deriving Repr, DecidableEq

/-- Modelled from the spec: the `FrontendRequest` declaration of the
`execution` module is not under `src/`.  §6 lists this closed request
vocabulary; `wait` carries the duration in milliseconds
(`Duration::from_millis`). -/
inductive FrontendRequest where
  | none
  | wait (milliseconds : Nat)
  | guiPrint (s : String)
  | guiDialogue (kind : Dialog) (message : String)
  | tcuFlush
  | tcuTransact (t : Transaction)
  | printerOpen
  | printerClose
  | printerTransact (t : Transaction)

/-- Modelled from the spec: `syntax/state.rs` is not under `src/`.  §3:
`EvalState` "contains exactly one boolean field, `hpmode`, initially
false." -/
structure EvalState where
  hpmode : Bool
deriving Repr, DecidableEq

/-- `EvalState::new`. -/
def EvalState.new : EvalState :=
  { hpmode := false }

/-- The wall-clock reading `Local::now()` takes at the moment `SETTIME` or
`USBSETTIME` is evaluated, passed explicitly here. -/
structure WallClock where
  hour : Nat
  minute : Nat
  second : Nat
  day : Nat
  month : Nat
  year : Nat
deriving Repr, DecidableEq

/-- `format!("{:02}", n)`: decimal, zero-padded to at least two digits. -/
def pad2 (n : Nat) : String :=
  if n < 10 then "0" ++ toString n else toString n

/-- The `HH:MM:SS,DD/MM/YY` string `SETTIME`/`USBSETTIME` build (the year
arithmetic assumes `year ≥ 1900`, as `Local::now` always provides). -/
def fmtTime (c : WallClock) : String :=
  pad2 c.hour ++ ":" ++ pad2 c.minute ++ ":" ++ pad2 c.second ++ "," ++
    pad2 c.day ++ "/" ++ pad2 c.month ++ "/" ++ pad2 ((c.year - 1900) % 100)

/-- Outcome of `evaluate`: `Ok(request)`, `Err(error)` (never constructed by
the source, which panics instead), or a panic. -/
inductive EvalResult where
  | ok (req : FrontendRequest)
  | err (e : Error)
  | panicked (msg : String)

/-- `true` on the panic outcome. -/
def EvalResult.isPanicked : EvalResult → Bool
  | .panicked _ => true
  | _ => false

/-- The `PRINT`/`USBPRINT` argument loop: strings contribute their bytes,
uints one byte each (`debug_assert!(*uint <= 255)` then `as u8`); any other
argument kind panics with the command's message. -/
def printArgBytes (invalidMsg : String) : List ParsedExpr → Except String (List Byte)
  | [] => .ok []
  | a :: rest =>
      match a.expression with
      | .string s => (printArgBytes invalidMsg rest).map (fun bs => strBytes s ++ bs)
      | .uint u =>
          if u ≤ 255 then (printArgBytes invalidMsg rest).map (fun bs => u % 256 :: bs)
          else .error "assertion failed: *uint <= 255"
      | _ => .error invalidMsg

/-- `evaluate` from `syntax/evaluate.rs`.  Every arm leaves the state
untouched except `HPMode`, which toggles `hpmode`.  `debug_assert!` is
embedded with its debug-profile semantics (panic when false). -/
def evaluate (clock : WallClock) (p : ParsedExpr) (state : EvalState) :
    EvalResult × EvalState :=
  match p.expression with
  | .string _ => (.panicked "Orphaned String", state)
  | .uint _ => (.panicked "Orphaned UInt", state)
  | .scriptComment _ => (.ok .none, state)
  | .hpMode => (.ok .none, { state with hpmode := !state.hpmode })
  | .comment arg =>
      ((match arg.expression with
        | .string s => .ok (.guiPrint s)
        | _ => .panicked "Invalid COMMENT arg"), state)
  | .wait arg =>
      ((match arg.expression with
        | .uint milliseconds => .ok (.wait milliseconds)
        | _ => .panicked "Invalid WAIT arg"), state)
  | .openDialog arg =>
      ((match arg.expression with
        | .string message => .ok (.guiDialogue .notification message)
        | _ => .panicked "Invalid OPENDIALOG arg"), state)
  | .waitDialog arg =>
      ((match arg.expression with
        | .string message => .ok (.guiDialogue .manualInput message)
        | _ => .panicked "Invalid WAITDIALOG arg"), state)
  | .flush => (.ok .tcuFlush, state)
  | .protocol => (.ok .none, state)
  | .print args =>
      ((match printArgBytes "Invalid PRINT arg" args with
        | .error m => .panicked m
        | .ok flat =>
            -- Each byte is transformed into its ASCII hex representation.
            let argBytes := hexExpand flat
            if argBytes.length > 255 then
              .panicked "not yet implemented: Print command is limited to 255 args"
            else
              .ok (.tcuTransact (Transaction.withTcu p
                ('P'.toNat :: tcuFormatByte (argBytes.length % 256) ++ argBytes ++ [13])
                Option.none))), state)
  | .setTimeFormat arg =>
      ((match arg.expression with
        | .uint u =>
            .ok (.tcuTransact (Transaction.withTcu p
              (strBytes (if state.hpmode then "P051B007466" else "P051B7466") ++
                tcuFormatByte (u % 256) ++ [13])
              Option.none))
        | _ => .panicked "explicit panic"), state)
  | .setTime =>
      (.ok (.tcuTransact (Transaction.withTcu p
        (strBytes (if state.hpmode then "P151B007473" else "P151B7473") ++
          hexExpand (strBytes (fmtTime clock)) ++ [13])
        Option.none)), state)
  | .setOption option setting =>
      ((match option.expression, setting.expression with
        | .uint o, .uint s =>
            if o ≤ 255 then
              if s ≤ 255 then
                .ok (.tcuTransact (Transaction.withTcu p
                  (strBytes (if state.hpmode then "P061B00004F" else "P061B004F") ++
                    fmt02X o ++ fmt02X s ++ [13])
                  Option.none))
              else .panicked "assertion failed: *setting <= 255"
            else .panicked "assertion failed: *option <= 255"
        | _, _ => .panicked "Invalid SETOPTION args"), state)
  | .tcuClose arg =>
      ((match arg.expression with
        | .uint relay =>
            if relay ≤ 255 then
              .ok (.tcuTransact (Transaction.withTcu p
                ('C'.toNat :: fmt02X relay ++ [13]) Option.none))
            else .panicked "assertion failed: *relay <= 255"
        | _ => .panicked "Invalid TCUCLOSE arg"), state)
  | .tcuOpen arg =>
      ((match arg.expression with
        | .uint relay =>
            if relay ≤ 255 then
              .ok (.tcuTransact (Transaction.withTcu p
                ('O'.toNat :: fmt02X relay ++ [13]) Option.none))
            else .panicked "assertion failed: *relay <= 255"
        | _ => .panicked "Invalid TCUOPEN arg"), state)
  | .tcuTest channel mn mx retries message =>
      ((match channel.expression, mn.expression, mx.expression, retries.expression,
          message.expression with
        | .uint c, .uint mnv, .uint mxv, .uint r, .string msg =>
            if c ≤ 255 then
              .ok (.tcuTransact (Transaction.withTcu p
                ('M'.toNat :: fmt02X c ++ [13])
                (some { expected := ⟨mnv, mxv⟩, retries := r, failureMessage := msg })))
            else .panicked "assertion failed: *channel <= 255"
        | _, _, _, _, _ => .panicked "Invalid TCUTEST args"), state)
  | .printerSet arg =>
      ((match arg.expression with
        | .uint channel =>
            if channel ≤ 255 then
              .ok (.tcuTransact (Transaction.withTcu p
                (strBytes (if state.hpmode then "P051B000053" else "P051B0053") ++
                  fmt02X channel ++ [13])
                Option.none))
            else .panicked "assertion failed: *channel <= 255"
        | _ => .panicked "Invalid PRINTERSET arg"), state)
  | .printerTest channel mn mx retries message =>
      ((match channel.expression, mn.expression, mx.expression, retries.expression,
          message.expression with
        | .uint c, .uint mnv, .uint mxv, .uint r, .string msg =>
            if c ≤ 255 then
              .ok (.tcuTransact (Transaction.withTcu p
                (strBytes (if state.hpmode then "W051B00004D" else "W051B004D") ++
                  fmt02X c ++ [13])
                (some { expected := ⟨mnv, mxv⟩, retries := r, failureMessage := msg })))
            else .panicked "assertion failed: *channel <= 255"
        | _, _, _, _, _ => .panicked "Invalid PRINTERTEST args"), state)
  | .issueTest _ => (.ok .none, state)
  | .testResult _ _ _ => (.ok .none, state)
  | .usbOpen => (.ok .printerOpen, state)
  | .usbClose => (.ok .printerClose, state)
  | .usbPrint args =>
      ((match printArgBytes "Invalid USBPRINT arg" args with
        | .error m => .panicked m
        | .ok bytes =>
            .ok (.printerTransact (Transaction.withPrinter p bytes Option.none))), state)
  | .usbSetTimeFormat arg =>
      ((match arg.expression with
        | .uint u =>
            .ok (.printerTransact (Transaction.withPrinter p
              (if state.hpmode then [0x1B, 0x00, 't'.toNat, 'f'.toNat, u % 256]
               else [0x1B, 't'.toNat, 'f'.toNat, u % 256])
              Option.none))
        | _ => .panicked "explicit panic"), state)
  | .usbSetTime =>
      (.ok (.printerTransact (Transaction.withPrinter p
        ((if state.hpmode then [0x1B, 0x00, 't'.toNat, 's'.toNat]
          else [0x1B, 't'.toNat, 's'.toNat]) ++ strBytes (fmtTime clock))
        Option.none)), state)
  | .usbSetOption option setting =>
      ((match option.expression, setting.expression with
        | .uint o, .uint s =>
            if o ≤ 255 then
              if s ≤ 255 then
                .ok (.printerTransact (Transaction.withPrinter p
                  (if state.hpmode then [0x1B, 0x00, 0x00, 'O'.toNat, o % 256, s % 256]
                   else [0x1B, 0x00, 'O'.toNat, o % 256, s % 256])
                  Option.none))
              else .panicked "assertion failed: *setting <= 255"
            else .panicked "assertion failed: *option <= 255"
        | _, _ => .panicked "Invalid USBSETOPTION args"), state)
  | .usbPrinterSet arg =>
      ((match arg.expression with
        | .uint channel =>
            if channel ≤ 255 then
              .ok (.printerTransact (Transaction.withPrinter p
                (if state.hpmode then [0x1B, 0x00, 0x00, 'S'.toNat, channel % 256]
                 else [0x1B, 0x00, 'S'.toNat, channel % 256])
                Option.none))
            else .panicked "assertion failed: *channel <= 255"
        | _ => .panicked "Invalid USBPRINTERSET arg"), state)
  | .usbPrinterTest channel mn mx retries message =>
      ((match channel.expression, mn.expression, mx.expression, retries.expression,
          message.expression with
        | .uint c, .uint mnv, .uint mxv, .uint r, .string msg =>
            if c ≤ 255 then
              .ok (.printerTransact (Transaction.withPrinter p
                (if state.hpmode then [0x1B, 0x00, 0x00, 'M'.toNat, c % 256]
                 else [0x1B, 0x00, 'M'.toNat, c % 256])
                (some { expected := ⟨mnv, mxv⟩, retries := r, failureMessage := msg })))
            else .panicked "assertion failed: *channel <= 255"
        | _, _, _, _, _ => .panicked "Invalid USBPRINTERTEST args"), state)

/-!
## Transaction engine (`execution/transaction.rs`)
-/

/-- `slice::split_inclusive` on `\r` (byte 13): each part ends with the
terminator, a final unterminated remainder is kept, and the empty slice has
no parts. -/
def splitInclusiveCR : List Byte → List (List Byte)
  | [] => []
  | b :: rest =>
      match splitInclusiveCR rest with
      | [] => [[b]]
      | part :: parts =>
          if b = 13 then [b] :: part :: parts
          else (b :: part) :: parts

/-- Outcome of `Transaction::process`/`evaluate_response`:
`Ok(TransactionStatus)`, `Err(Error)` (never constructed by the source), or
a panic. -/
inductive TOutcome where
  | ok (status : TransactionStatus)
  | err (e : Error)
  | panicked (msg : String)

/-- `true` on the panic outcome. -/
def TOutcome.isPanicked : TOutcome → Bool
  | .panicked _ => true
  | _ => false

/-- The echo check `echo.is_some_and(|echo| *echo != self.txbytes)`. -/
def echoMismatch (echo : Option (List Byte)) (txbytes : List Byte) : Bool :=
  match echo with
  | some e => e ≠ txbytes
  | none => false

/-- `Transaction::evaluate_response`: count the expected `\r`-terminated
parts, report `Ongoing` while the response is incomplete, validate the TCU
echo (`todo!` on mismatch), then run the measurement test (`todo!` on parse
failure and on final test failure). -/
def Transaction.evaluateResponse (t : Transaction) : TOutcome :=
  let echoExpected := t.device == Device.tcu
  let expectedEndings : Nat :=
    if t.test.isSome && echoExpected then 2
    else if t.test.isSome || echoExpected then 1
    else 0
  -- No response expected.
  if expectedEndings = 0 then .ok .success
  else
    let parts := splitInclusiveCR t.response
    -- Incomplete response.
    if parts.length < expectedEndings then .ok (.ongoing t)
    else
      let echo := if echoExpected then parts.get? 0 else Option.none
      let measurement := if echoExpected then parts.get? 1 else parts.get? 0
      -- Validate the echo.
      if echoMismatch echo t.txbytes then
        .panicked "not yet implemented: Command echo incorrect"
      else
        -- Test the measurement.
        match t.test with
        | Option.none => .ok .success
        | some test =>
            match measurement with
            | Option.none => .panicked "called Option::unwrap() on a None value"
            | some m =>
                match measurementTryFrom m with
                | .error _ => .panicked "not yet implemented: Handle measurement parsing failure"
                | .ok value =>
                    match test.test value with
                    | .ok _ => .ok .success
                    | .error (.testFailedRetryable retry) =>
                        .ok (.ongoing { t with test := some retry, txcomplete := false })
                    | .error (.testFailed _) => .panicked "not yet implemented"
                    | .error .parseError => .panicked "not yet implemented"

/-- `PortMock` from the repository's tests: written bytes accumulate in
`txdata`, pending device bytes wait in `rxdata`. -/
structure MockPort where
  rxdata : List Byte
  txdata : List Byte
deriving Repr, DecidableEq

/-- `write_all`: append to the written stream (the mock never fails). -/
def MockPort.writeAll (p : MockPort) (bytes : List Byte) : MockPort :=
  { p with txdata := p.txdata ++ bytes }

/-- The read loop of `process`: drain everything available this round. -/
def MockPort.readAll (p : MockPort) : List Byte × MockPort :=
  (p.rxdata, { p with rxdata := [] })

/-- `Transaction::process`: send `txbytes` once (`Printer` with no test
succeeds immediately after sending), then append whatever the port has and
evaluate the accumulated response. -/
def Transaction.process (t : Transaction) (port : MockPort) : TOutcome × MockPort :=
  -- Send bytes if needed.
  if !t.txcomplete then
    let port := port.writeAll t.txbytes
    let t := { t with txcomplete := true }
    if t.device == Device.printer && t.test.isNone then (.ok .success, port)
    else (.ok (.ongoing t), port)
  else
    let (response, port) := port.readAll
    let t := { t with response := t.response ++ response }
    (t.evaluateResponse, port)

/-!
## Interpreter glue (`interpreter.rs`)
-/

/-- `Interpreter`: the AST, a cursor, and the evaluator state. -/
structure Interpreter where
  ast : List ParsedExpr
  index : Nat
  state : EvalState

/-- `Interpreter::restart`: reset the cursor and the state. -/
def Interpreter.restart (i : Interpreter) : Interpreter :=
  { i with index := 0, state := EvalState.new }

/-- One `Iterator::next` step: evaluate `ast[index]` and advance, or stop at
the end of the script. -/
def Interpreter.next (clock : WallClock) (i : Interpreter) :
    Option (EvalResult × Interpreter) :=
  match i.ast.get? i.index with
  | some expr =>
      let (r, state) := evaluate clock expr i.state
      some (r, { i with index := i.index + 1, state })
  | Option.none => Option.none

/-- The evaluator state after evaluating a list of statements in order. -/
def runScript (clock : WallClock) (es : List ParsedExpr) (s : EvalState) : EvalState :=
  es.foldl (fun s e => (evaluate clock e s).2) s

/-- `true` exactly on the `HPMode` expression. -/
def isHPModeNode : Expr → Bool
  | .hpMode => true
  | _ => false

/-- The number of `HPMODE` statements in a script. -/
def countHPMode (es : List ParsedExpr) : Nat :=
  es.countP fun e => isHPModeNode e.expression

/-!
## Well-formedness of evaluator inputs

The argument shapes each `evaluate` arm requires before it can produce a
request.  The parser guarantees them for the validated argument positions
(`string_arg`, `uint_arg`, `byte_arg`) but not for bare value lines, the
five unvalidated `TEST` parameters, or `PRINT`/`USBPRINT` elements.
-/

/-- The argument is a `String` value. -/
def isStringArg : ParsedExpr → Bool
  | .mk (.string _) _ => true
  | _ => false

/-- The argument is a `UInt` value. -/
def isUintArg : ParsedExpr → Bool
  | .mk (.uint _) _ => true
  | _ => false

/-- The argument is a `UInt` value that fits in a byte. -/
def isByteArg : ParsedExpr → Bool
  | .mk (.uint v) _ => decide (v ≤ 255)
  | _ => false

/-- The shapes on which `evaluate` reaches no panic: a command whose
argument slots hold the kinds its arm destructures, whose byte-asserted
uints are at most 255, and whose `PRINT` payload passes the length check. -/
def wfNode : Expr → Bool
  | .string _ => false
  | .uint _ => false
  | .scriptComment _ => true
  | .hpMode => true
  | .comment a => isStringArg a
  | .wait a => isUintArg a
  | .openDialog a => isStringArg a
  | .waitDialog a => isStringArg a
  | .flush => true
  | .protocol => true
  | .print args =>
      match printArgBytes "Invalid PRINT arg" args with
      | .ok flat => decide ((hexExpand flat).length ≤ 255)
      | .error _ => false
  | .setTimeFormat a => isUintArg a
  | .setTime => true
  | .setOption o s => isByteArg o && isByteArg s
  | .tcuClose a => isByteArg a
  | .tcuOpen a => isByteArg a
  | .tcuTest c mn mx r m =>
      isByteArg c && isUintArg mn && isUintArg mx && isUintArg r && isStringArg m
  | .printerSet a => isByteArg a
  | .printerTest c mn mx r m =>
      isByteArg c && isUintArg mn && isUintArg mx && isUintArg r && isStringArg m
  | .issueTest _ => true
  | .testResult _ _ _ => true
  | .usbOpen => true
  | .usbClose => true
  | .usbPrint args =>
      match printArgBytes "Invalid USBPRINT arg" args with
      | .ok _ => true
      | .error _ => false
  | .usbSetTimeFormat a => isUintArg a
  | .usbSetTime => true
  | .usbSetOption o s => isByteArg o && isByteArg s
  | .usbPrinterSet a => isByteArg a
  | .usbPrinterTest c mn mx r m =>
      isByteArg c && isUintArg mn && isUintArg mx && isUintArg r && isStringArg m

/-!
## Helper lemmas
-/

/-- Every `evaluate` arm leaves the state unchanged except `HPMode`, which
toggles the `hpmode` flag. -/
theorem evaluate_snd_eq (clock : WallClock) (e : Expr) (sp : Span) (s : EvalState) :
    (evaluate clock (.mk e sp) s).2
      = if isHPModeNode e then { hpmode := !s.hpmode } else s := by
  cases e <;> rfl

/-- The `hpmode` flag after a script is the initial flag xor the parity of
the number of `HPMODE` statements. -/
theorem runScript_hpmode_parity (clock : WallClock) (es : List ParsedExpr) (s : EvalState) :
    (runScript clock es s).hpmode
      = (s.hpmode ^^ decide (countHPMode es % 2 = 1)) := by
  induction es generalizing s with
  | nil => simp [runScript, countHPMode]
  | cons e es ih =>
      obtain ⟨ee, esp⟩ := e
      have hstep : runScript clock (ParsedExpr.mk ee esp :: es) s
          = runScript clock es ((evaluate clock (.mk ee esp) s).2) := rfl
      rw [hstep, ih, evaluate_snd_eq]
      have hcnt : countHPMode (ParsedExpr.mk ee esp :: es)
          = (if isHPModeNode ee then 1 else 0) + countHPMode es := by
        simp [countHPMode, List.countP_cons, ParsedExpr.expression]
        rcases h : isHPModeNode ee <;> simp [h, Nat.add_comm]
      rw [hcnt]
      rcases h : isHPModeNode ee <;>
        rcases Nat.mod_two_eq_zero_or_one (countHPMode es) with hm | hm <;>
          simp [h, hm, Nat.add_mod]

/-!
## Claims
-/

/-- Claim C6: the claim says `parse_from_str` is total and never panics,
including on numeric literals beyond the unsigned 32-bit range.  Evaluating
the parser at the failing input `4294967296` (= `2 ^ 32`): the decimal
literal reaches `s.parse::<u32>().unwrap()`, which panics on overflow
instead of returning an error list. -/
theorem c6_parse_panics_on_u32_overflow :
    parseFromStr "4294967296"
      = ParseOutcome.panicked "called Result::unwrap() on an Err value: ParseIntError" := rfl

/-- Claim C3: the claim says every byte-typed argument position — including
the channel argument of `TCUTEST` — is validated to 255 and larger values
are rejected with an `ArgValue` error.  Evaluating the parser at the failing
input `TCUTEST 256, 0, 1, 0, "m"`: the five `TCUTEST` parameters go through
the unvalidated `expr` parser, so the tree is returned with channel `256`
and no error (first conjunct; tree equality ignores spans, as the Rust
`PartialEq` does), while the genuinely validated `byte_arg` position of
`TCUCLOSE 256` is rejected with the `ArgValue` error the claim describes
(second conjunct). -/
theorem c3_test_channel_accepts_out_of_range :
    (parseFromStr "TCUTEST 256, 0, 1, 0, \"m\"").producesTree
        [ParsedExpr.mk (Expr.tcuTest (.mk (.uint 256) ⟨0, 0⟩) (.mk (.uint 0) ⟨0, 0⟩)
          (.mk (.uint 1) ⟨0, 0⟩) (.mk (.uint 0) ⟨0, 0⟩) (.mk (.string "m") ⟨0, 0⟩)) ⟨0, 0⟩]
      = true ∧
    parseFromStr "TCUCLOSE 256"
      = ParseOutcome.errs [Error.argumentValueSize ⟨9, 12⟩ 256 (0, 255)] :=
  ⟨rfl, rfl⟩

/-- Claim C4 (counterexample): the grammar's top-level `value` production
returns the bare `UInt` line `5` as a tree, and `evaluate` panics on it
(`panic!("Orphaned UInt")`) rather than returning a request or an error. -/
theorem c4_bare_value_line_panics :
    parseFromStr "5" = ParseOutcome.ok [ParsedExpr.mk (Expr.uint 5) ⟨0, 1⟩] ∧
    (evaluate ⟨0, 0, 0, 0, 0, 0⟩ (.mk (.uint 5) ⟨0, 1⟩) EvalState.new).1
      = .panicked "Orphaned UInt" :=
  ⟨rfl, rfl⟩

set_option maxHeartbeats 1600000 in
/-- Claim C4 (amended): for every AST node satisfying the evaluator's
argument-shape requirements `wfNode` — which the parser guarantees for all
validated argument positions but not for bare value lines, `TEST` command
parameters, or `PRINT`/`USBPRINT` payloads — `evaluate` returns a
`FrontendRequest` or an `Error` and never panics, in any state. -/
theorem c4_evaluate_total_on_wf_nodes (clock : WallClock) (e : Expr) (sp : Span)
    (s : EvalState) (h : wfNode e = true) :
    (evaluate clock (.mk e sp) s).1.isPanicked = false := by
  cases e with
  | string _ => simp [wfNode] at h
  | uint _ => simp [wfNode] at h
  | scriptComment _ => rfl
  | hpMode => rfl
  | comment a =>
      obtain ⟨ae, asp⟩ := a
      cases ae <;> simp_all [wfNode, isStringArg, evaluate, ParsedExpr.expression,
        EvalResult.isPanicked]
  | wait a =>
      obtain ⟨ae, asp⟩ := a
      cases ae <;> simp_all [wfNode, isUintArg, evaluate, ParsedExpr.expression,
        EvalResult.isPanicked]
  | openDialog a =>
      obtain ⟨ae, asp⟩ := a
      cases ae <;> simp_all [wfNode, isStringArg, evaluate, ParsedExpr.expression,
        EvalResult.isPanicked]
  | waitDialog a =>
      obtain ⟨ae, asp⟩ := a
      cases ae <;> simp_all [wfNode, isStringArg, evaluate, ParsedExpr.expression,
        EvalResult.isPanicked]
  | flush => rfl
  | protocol => rfl
  | print args =>
      cases hpb : printArgBytes "Invalid PRINT arg" args with
      | ok flat =>
          simp only [wfNode, hpb, decide_eq_true_eq] at h
          simp [evaluate, ParsedExpr.expression, hpb, EvalResult.isPanicked, Nat.not_lt.mpr h]
      | error m => simp [wfNode, hpb] at h
  | setTimeFormat a =>
      obtain ⟨ae, asp⟩ := a
      cases ae <;> simp_all [wfNode, isUintArg, evaluate, ParsedExpr.expression,
        EvalResult.isPanicked]
  | setTime => rfl
  | setOption o s' =>
      obtain ⟨oe, osp⟩ := o
      obtain ⟨se, ssp⟩ := s'
      cases oe <;> cases se <;> simp_all [wfNode, isByteArg, evaluate,
        ParsedExpr.expression, EvalResult.isPanicked]
  | tcuClose a =>
      obtain ⟨ae, asp⟩ := a
      cases ae <;> simp_all [wfNode, isByteArg, evaluate, ParsedExpr.expression,
        EvalResult.isPanicked]
  | tcuOpen a =>
      obtain ⟨ae, asp⟩ := a
      cases ae <;> simp_all [wfNode, isByteArg, evaluate, ParsedExpr.expression,
        EvalResult.isPanicked]
  | tcuTest c mn mx r m =>
      obtain ⟨ce, csp⟩ := c
      cases ce <;> simp_all [wfNode, isByteArg, isUintArg, isStringArg,
        ParsedExpr.expression]
      obtain ⟨me, msp⟩ := mn
      cases me <;> simp_all
      obtain ⟨xe, xsp⟩ := mx
      cases xe <;> simp_all
      obtain ⟨re, rsp⟩ := r
      cases re <;> simp_all
      obtain ⟨ge, gsp⟩ := m
      cases ge <;> simp_all [evaluate, ParsedExpr.expression, EvalResult.isPanicked]
  | printerSet a =>
      obtain ⟨ae, asp⟩ := a
      cases ae <;> simp_all [wfNode, isByteArg, evaluate, ParsedExpr.expression,
        EvalResult.isPanicked]
  | printerTest c mn mx r m =>
      obtain ⟨ce, csp⟩ := c
      cases ce <;> simp_all [wfNode, isByteArg, isUintArg, isStringArg,
        ParsedExpr.expression]
      obtain ⟨me, msp⟩ := mn
      cases me <;> simp_all
      obtain ⟨xe, xsp⟩ := mx
      cases xe <;> simp_all
      obtain ⟨re, rsp⟩ := r
      cases re <;> simp_all
      obtain ⟨ge, gsp⟩ := m
      cases ge <;> simp_all [evaluate, ParsedExpr.expression, EvalResult.isPanicked]
  | issueTest a => rfl
  | testResult mn mx m => rfl
  | usbOpen => rfl
  | usbClose => rfl
  | usbPrint args =>
      cases hpb : printArgBytes "Invalid USBPRINT arg" args with
      | ok bytes => simp [evaluate, ParsedExpr.expression, hpb, EvalResult.isPanicked]
      | error m => simp [wfNode, hpb] at h
  | usbSetTimeFormat a =>
      obtain ⟨ae, asp⟩ := a
      cases ae <;> simp_all [wfNode, isUintArg, evaluate, ParsedExpr.expression,
        EvalResult.isPanicked]
  | usbSetTime => rfl
  | usbSetOption o s' =>
      obtain ⟨oe, osp⟩ := o
      obtain ⟨se, ssp⟩ := s'
      cases oe <;> cases se <;> simp_all [wfNode, isByteArg, evaluate,
        ParsedExpr.expression, EvalResult.isPanicked]
  | usbPrinterSet a =>
      obtain ⟨ae, asp⟩ := a
      cases ae <;> simp_all [wfNode, isByteArg, evaluate, ParsedExpr.expression,
        EvalResult.isPanicked]
  | usbPrinterTest c mn mx r m =>
      obtain ⟨ce, csp⟩ := c
      cases ce <;> simp_all [wfNode, isByteArg, isUintArg, isStringArg,
        ParsedExpr.expression]
      obtain ⟨me, msp⟩ := mn
      cases me <;> simp_all
      obtain ⟨xe, xsp⟩ := mx
      cases xe <;> simp_all
      obtain ⟨re, rsp⟩ := r
      cases re <;> simp_all
      obtain ⟨ge, gsp⟩ := m
      cases ge <;> simp_all [evaluate, ParsedExpr.expression, EvalResult.isPanicked]

/-- Claim C4 (amended, witness): the requirement holds and the theorem
applies at the concrete node `FLUSH`. -/
theorem c4_evaluate_total_on_wf_nodes_witness :
    (evaluate ⟨0, 0, 0, 0, 0, 0⟩ (.mk .flush ⟨0, 0⟩) EvalState.new).1.isPanicked = false :=
  c4_evaluate_total_on_wf_nodes ⟨0, 0, 0, 0, 0, 0⟩ .flush ⟨0, 0⟩ EvalState.new (by decide)

/-- Claim C9: starting from a fresh state (`hpmode = false`, also restored
by `restart` together with the cursor), a script prefix with an even number
of `HPMODE` statements leaves `hpmode` false and an odd number leaves it
true; each `HPMODE` evaluation yields `FrontendRequest::None` and flips only
this boolean (the state holds nothing else). -/
theorem c9_hpmode_parity :
    EvalState.new.hpmode = false ∧
    (∀ i : Interpreter, i.restart.state = EvalState.new ∧ i.restart.index = 0) ∧
    (∀ (clock : WallClock) (es : List ParsedExpr), countHPMode es % 2 = 0 →
      (runScript clock es EvalState.new).hpmode = false) ∧
    (∀ (clock : WallClock) (es : List ParsedExpr), countHPMode es % 2 = 1 →
      (runScript clock es EvalState.new).hpmode = true) ∧
    (∀ (clock : WallClock) (sp : Span) (s : EvalState),
      evaluate clock (.mk .hpMode sp) s = (.ok .none, { hpmode := !s.hpmode })) := by
  refine ⟨rfl, fun i => ⟨rfl, rfl⟩, ?_, ?_, fun _ _ _ => rfl⟩
  · intro clock es h
    rw [runScript_hpmode_parity]
    simp [h, EvalState.new]
  · intro clock es h
    rw [runScript_hpmode_parity]
    simp [h, EvalState.new]

/-- Claim C9 (witness): two `HPMODE` statements (with a `FLUSH` between)
leave `hpmode` false; a single one leaves it true. -/
theorem c9_hpmode_parity_witness :
    (runScript ⟨0, 0, 0, 0, 0, 0⟩ [ParsedExpr.mk .hpMode ⟨0, 0⟩, ParsedExpr.mk .flush ⟨0, 0⟩,
      ParsedExpr.mk .hpMode ⟨0, 0⟩] EvalState.new).hpmode = false ∧
    (runScript ⟨0, 0, 0, 0, 0, 0⟩ [ParsedExpr.mk .hpMode ⟨0, 0⟩] EvalState.new).hpmode = true :=
  ⟨c9_hpmode_parity.2.2.1 ⟨0, 0, 0, 0, 0, 0⟩ _ (by decide),
   c9_hpmode_parity.2.2.2.1 ⟨0, 0, 0, 0, 0, 0⟩ _ (by decide)⟩

/-- Claim C8: `SETTIMEFORMAT` with a byte argument `u` encodes to
`P051B7466` + `fmt2(u)` + `\r` without HPMode and to `P051B007466` +
`fmt2(u)` + `\r` under HPMode, as a TCU transaction carrying the
`SETTIMEFORMAT` expression and no measurement test. -/
theorem c8_settimeformat_encoding (clock : WallClock) (u : Nat) (hu : u ≤ 255)
    (sp argSp : Span) (hp : Bool) :
    evaluate clock (.mk (.setTimeFormat (.mk (.uint u) argSp)) sp) ⟨hp⟩
      = (.ok (.tcuTransact (Transaction.withTcu
          (.mk (.setTimeFormat (.mk (.uint u) argSp)) sp)
          (strBytes (if hp then "P051B007466" else "P051B7466") ++ tcuFormatByte u ++ [13])
          Option.none)), ⟨hp⟩) := by
  have hm : u % 256 = u := Nat.mod_eq_of_lt (by omega)
  simp [evaluate, ParsedExpr.expression, hm]

/-- Claim C8 (witness): at `u = 5` the two encodings are the ASCII strings
`P051B746605\r` and `P051B00746605\r`. -/
theorem c8_settimeformat_encoding_witness :
    evaluate ⟨0, 0, 0, 0, 0, 0⟩ (.mk (.setTimeFormat (.mk (.uint 5) ⟨0, 0⟩)) ⟨0, 0⟩) ⟨false⟩
      = (.ok (.tcuTransact (Transaction.withTcu
          (.mk (.setTimeFormat (.mk (.uint 5) ⟨0, 0⟩)) ⟨0, 0⟩)
          (strBytes "P051B746605\r") Option.none)), ⟨false⟩) ∧
    evaluate ⟨0, 0, 0, 0, 0, 0⟩ (.mk (.setTimeFormat (.mk (.uint 5) ⟨0, 0⟩)) ⟨0, 0⟩) ⟨true⟩
      = (.ok (.tcuTransact (Transaction.withTcu
          (.mk (.setTimeFormat (.mk (.uint 5) ⟨0, 0⟩)) ⟨0, 0⟩)
          (strBytes "P051B00746605\r") Option.none)), ⟨true⟩) :=
  ⟨c8_settimeformat_encoding ⟨0, 0, 0, 0, 0, 0⟩ 5 (by decide) ⟨0, 0⟩ ⟨0, 0⟩ false,
   c8_settimeformat_encoding ⟨0, 0, 0, 0, 0, 0⟩ 5 (by decide) ⟨0, 0⟩ ⟨0, 0⟩ true⟩

set_option maxRecDepth 8192 in
/-- Claim C7 (counterexample): a `PRINT` whose flat payload is 128 bytes —
within the 255-byte bound the claim allows — is not encoded into a
`TCUTransact` and produces no `Error` either: the hex expansion doubles the
length to 256, the code checks the *expanded* length against 255, and the
oversize branch is the `todo!` panic. -/
theorem c7_flat_128_bytes_panics :
    printArgBytes "Invalid PRINT arg"
        [ParsedExpr.mk (.string (String.mk (List.replicate 128 'a'))) ⟨0, 0⟩]
      = Except.ok (List.replicate 128 97) ∧
    (evaluate ⟨0, 0, 0, 0, 0, 0⟩
        (.mk (.print [ParsedExpr.mk (.string (String.mk (List.replicate 128 'a'))) ⟨0, 0⟩]) ⟨0, 0⟩)
        EvalState.new).1
      = .panicked "not yet implemented: Print command is limited to 255 args" :=
  ⟨rfl, rfl⟩

/-- Claim C7 (amended): for a `PRINT` whose arguments flatten to `flat`
(strings as bytes, uints as single bytes), the evaluator panics at the
unimplemented `todo!` when the hex-expanded length `2 * |flat|` exceeds 255,
and otherwise returns a `TCUTransact` whose bytes are `P`, `fmt2` of the
hex-expanded length, the hex-expanded bytes, then `\r`. -/
theorem c7_print_payload (clock : WallClock) (args : List ParsedExpr) (sp : Span)
    (s : EvalState) (flat : List Byte)
    (hargs : printArgBytes "Invalid PRINT arg" args = Except.ok flat) :
    (255 < (hexExpand flat).length →
      (evaluate clock (.mk (.print args) sp) s).1
        = .panicked "not yet implemented: Print command is limited to 255 args") ∧
    ((hexExpand flat).length ≤ 255 →
      (evaluate clock (.mk (.print args) sp) s).1
        = .ok (.tcuTransact (Transaction.withTcu (.mk (.print args) sp)
            ('P'.toNat :: tcuFormatByte ((hexExpand flat).length % 256) ++ hexExpand flat ++ [13])
            Option.none))) := by
  constructor
  · intro h
    simp [evaluate, ParsedExpr.expression, hargs, h]
  · intro h
    simp [evaluate, ParsedExpr.expression, hargs, Nat.not_lt.mpr h]

/-- Claim C7 (amended, witness): `PRINT "t", 123, $F3` flattens to three
bytes, passes the length check, and encodes to `P06747BF3\r`. -/
theorem c7_print_payload_witness :
    (evaluate ⟨0, 0, 0, 0, 0, 0⟩
        (.mk (.print [ParsedExpr.mk (.string "t") ⟨0, 0⟩, ParsedExpr.mk (.uint 123) ⟨0, 0⟩,
          ParsedExpr.mk (.uint 243) ⟨0, 0⟩]) ⟨0, 0⟩) EvalState.new).1
      = .ok (.tcuTransact (Transaction.withTcu
          (.mk (.print [ParsedExpr.mk (.string "t") ⟨0, 0⟩, ParsedExpr.mk (.uint 123) ⟨0, 0⟩,
            ParsedExpr.mk (.uint 243) ⟨0, 0⟩]) ⟨0, 0⟩)
          (strBytes "P06747BF3\r") Option.none)) :=
  (c7_print_payload ⟨0, 0, 0, 0, 0, 0⟩
      [ParsedExpr.mk (.string "t") ⟨0, 0⟩, ParsedExpr.mk (.uint 123) ⟨0, 0⟩,
        ParsedExpr.mk (.uint 243) ⟨0, 0⟩] ⟨0, 0⟩ EvalState.new [116, 123, 243] rfl).2
    (by decide)

/-- The `ParsedExpr` of `TCUTEST 3, 1000, 12000, 1, "FAIL"` (spans
defaulted; tree equality ignores them). -/
def tcuTestNode : ParsedExpr :=
  .mk (.tcuTest (.mk (.uint 3) ⟨0, 0⟩) (.mk (.uint 1000) ⟨0, 0⟩) (.mk (.uint 12000) ⟨0, 0⟩)
    (.mk (.uint 1) ⟨0, 0⟩) (.mk (.string "FAIL") ⟨0, 0⟩)) ⟨0, 0⟩

/-- The same test command with `retries = 0`. -/
def tcuTestNode0 : ParsedExpr :=
  .mk (.tcuTest (.mk (.uint 3) ⟨0, 0⟩) (.mk (.uint 1000) ⟨0, 0⟩) (.mk (.uint 12000) ⟨0, 0⟩)
    (.mk (.uint 0) ⟨0, 0⟩) (.mk (.string "FAIL") ⟨0, 0⟩)) ⟨0, 0⟩

/-- Claim C1: the claim says that after an out-of-range measurement with
retries remaining the engine resends and a new in-range measurement then
yields `Success`.  Evaluating the code at the failing input
`TCUTEST 3, 1000, 12000, 1, "FAIL"` (conjunct 1 builds its transaction):
the first `process` sends `M03\r` (conjunct 2); the device echoes and
reports the out-of-range `FFFF`, so the engine decrements retries, clears
`tx_complete` and stays `Ongoing` with the response buffer preserved
(conjunct 3); the next `process` resends `tx_bytes` unchanged (conjunct 4);
but when the device then echoes again and delivers the in-range
measurement `AA1`, `evaluate_response` re-reads parts 0 and 1 of the never
cleared buffer — the old echo and the old out-of-range measurement — so
instead of the claimed `Success` the retry fails again and, retries now
exhausted, the `todo!` for final test failure panics (conjunct 5). -/
theorem c1_retry_rereads_stale_measurement :
    (evaluate ⟨0, 0, 0, 0, 0, 0⟩ tcuTestNode EvalState.new).1
      = .ok (.tcuTransact ⟨tcuTestNode, strBytes "M03\r", false, .tcu, [],
          some ⟨⟨1000, 12000⟩, 1, "FAIL"⟩⟩) ∧
    Transaction.process ⟨tcuTestNode, strBytes "M03\r", false, .tcu, [],
        some ⟨⟨1000, 12000⟩, 1, "FAIL"⟩⟩ ⟨[], []⟩
      = (.ok (.ongoing ⟨tcuTestNode, strBytes "M03\r", true, .tcu, [],
          some ⟨⟨1000, 12000⟩, 1, "FAIL"⟩⟩), ⟨[], strBytes "M03\r"⟩) ∧
    Transaction.process ⟨tcuTestNode, strBytes "M03\r", true, .tcu, [],
        some ⟨⟨1000, 12000⟩, 1, "FAIL"⟩⟩ ⟨strBytes "M03\rFFFF\r", strBytes "M03\r"⟩
      = (.ok (.ongoing ⟨tcuTestNode, strBytes "M03\r", false, .tcu, strBytes "M03\rFFFF\r",
          some ⟨⟨1000, 12000⟩, 0, "FAIL"⟩⟩), ⟨[], strBytes "M03\r"⟩) ∧
    Transaction.process ⟨tcuTestNode, strBytes "M03\r", false, .tcu, strBytes "M03\rFFFF\r",
        some ⟨⟨1000, 12000⟩, 0, "FAIL"⟩⟩ ⟨[], strBytes "M03\r"⟩
      = (.ok (.ongoing ⟨tcuTestNode, strBytes "M03\r", true, .tcu, strBytes "M03\rFFFF\r",
          some ⟨⟨1000, 12000⟩, 0, "FAIL"⟩⟩), ⟨[], strBytes "M03\r" ++ strBytes "M03\r"⟩) ∧
    Transaction.process ⟨tcuTestNode, strBytes "M03\r", true, .tcu, strBytes "M03\rFFFF\r",
        some ⟨⟨1000, 12000⟩, 0, "FAIL"⟩⟩
        ⟨strBytes "M03\rAA1\r", strBytes "M03\r" ++ strBytes "M03\r"⟩
      = (.panicked "not yet implemented", ⟨[], strBytes "M03\r" ++ strBytes "M03\r"⟩) :=
  ⟨rfl, rfl, rfl, rfl, rfl⟩

/-- Claim C2: the claim says an out-of-range measurement with `retries == 0`
makes `process` return a `TestFailure` error, not a panic.  Evaluating the
code at the failing input (`TCUTEST 3, 1000, 12000, 0, "FAIL"` transaction,
response `M03\rFFFF\r`): `MeasurementTest::test` does build the
`TestFailed` value carrying the measurement `0xFFFF = 65535`, the range and
the message (conjunct 2), but `evaluate_response` discards it at the
unimplemented `todo!` and panics (conjunct 1); the `syntax::Error` type the
engine returns has no `TestFailure` variant at all. -/
theorem c2_final_test_failure_panics :
    Transaction.evaluateResponse ⟨tcuTestNode0, strBytes "M03\r", true, .tcu,
        strBytes "M03\rFFFF\r", some ⟨⟨1000, 12000⟩, 0, "FAIL"⟩⟩
      = .panicked "not yet implemented" ∧
    MeasurementTest.test ⟨⟨1000, 12000⟩, 0, "FAIL"⟩ 65535
      = .error (.testFailed ⟨65535, ⟨1000, 12000⟩, "FAIL"⟩) :=
  ⟨rfl, rfl⟩

/-- Claim C5: the claim says a TCU echo mismatch fails the transaction with
an `IOError`-class error tagged to the expression.  Evaluating the code at
the failing input (a TCU transaction that sent `C04\r` and received
`X04\r`): the echo check hits `todo!("Command echo incorrect")` and panics
instead of returning an error (conjunct 1; the `syntax::Error` type has no
`IOError` variant).  For a Printer transaction no echo check is performed:
a response whose first part differs from `tx_bytes` still succeeds
(conjunct 2). -/
theorem c5_echo_mismatch_panics :
    Transaction.evaluateResponse ⟨.mk (.tcuClose (.mk (.uint 4) ⟨0, 0⟩)) ⟨0, 0⟩,
        strBytes "C04\r", true, .tcu, strBytes "X04\r", Option.none⟩
      = .panicked "not yet implemented: Command echo incorrect" ∧
    Transaction.evaluateResponse ⟨.mk (.usbPrinterTest (.mk (.uint 3) ⟨0, 0⟩)
          (.mk (.uint 1000) ⟨0, 0⟩) (.mk (.uint 12000) ⟨0, 0⟩) (.mk (.uint 1) ⟨0, 0⟩)
          (.mk (.string "FAIL") ⟨0, 0⟩)) ⟨0, 0⟩,
        [0x1B, 0x00, 'M'.toNat, 3], true, .printer, strBytes "AA1\r",
        some ⟨⟨1000, 12000⟩, 1, "FAIL"⟩⟩
      = .ok .success :=
  ⟨rfl, rfl⟩

/-- Claim C10: for either device — the TCU reads the part after its
validated echo, the Printer the first part — when the measurement test
fails with retries remaining, the `Ongoing` transaction
`evaluate_response` returns differs from its input only in the test's
retries counter (decremented by one) and in `tx_complete` (cleared);
`tx_bytes`, `device`, `expression`, the test's expected range and failure
message, and the accumulated response buffer (preserved, not cleared) are
unchanged. -/
theorem c10_retry_frame (t : Transaction) (mt : MeasurementTest)
    (measPart : List Byte) (value : Nat)
    (htest : t.test = some mt)
    (hcomplete : ¬ ((splitInclusiveCR t.response).length
      < if t.device == Device.tcu then 2 else 1))
    (hmeas : (splitInclusiveCR t.response)[if t.device == Device.tcu then 1 else 0]?
      = some measPart)
    (hecho : t.device = Device.printer
      ∨ (splitInclusiveCR t.response)[0]? = some t.txbytes)
    (hparse : measurementTryFrom measPart = Except.ok value)
    (hfail : mt.expected.containsB value = false)
    (hretries : mt.retries ≠ 0) :
    t.evaluateResponse = .ok (.ongoing
      { t with test := some { mt with retries := mt.retries - 1 }, txcomplete := false }) := by
  cases hdev : t.device with
  | tcu =>
      rcases hecho with hecho | hecho
      · rw [hdev] at hecho
        cases hecho
      · rw [hdev] at hcomplete hmeas
        simp only [beq_self_eq_true, if_true] at hcomplete hmeas
        simp [Transaction.evaluateResponse, hdev, htest, hcomplete, hmeas, hecho,
          echoMismatch, hparse, hfail, MeasurementTest.test, Nat.pos_of_ne_zero hretries]
  | printer =>
      rw [hdev] at hcomplete hmeas
      simp at hcomplete hmeas
      simp [Transaction.evaluateResponse, hdev, htest, hcomplete, hmeas,
        echoMismatch, hparse, hfail, MeasurementTest.test, Nat.pos_of_ne_zero hretries]

/-- The `ParsedExpr` of `USBPRINTERTEST 3, 1000, 12000, 1, "FAIL"` (spans
defaulted). -/
def usbPrinterTestNode : ParsedExpr :=
  .mk (.usbPrinterTest (.mk (.uint 3) ⟨0, 0⟩) (.mk (.uint 1000) ⟨0, 0⟩)
    (.mk (.uint 12000) ⟨0, 0⟩) (.mk (.uint 1) ⟨0, 0⟩) (.mk (.string "FAIL") ⟨0, 0⟩)) ⟨0, 0⟩

/-- Claim C10 (witness): the frame condition applied to the concrete TCU
transaction of C1's second step and to the concrete Printer transaction of
`USBPRINTERTEST 3, 1000, 12000, 1, "FAIL"`. -/
theorem c10_retry_frame_witness :
    Transaction.evaluateResponse ⟨tcuTestNode, strBytes "M03\r", true, .tcu,
        strBytes "M03\rFFFF\r", some ⟨⟨1000, 12000⟩, 1, "FAIL"⟩⟩
      = .ok (.ongoing ⟨tcuTestNode, strBytes "M03\r", false, .tcu,
          strBytes "M03\rFFFF\r", some ⟨⟨1000, 12000⟩, 0, "FAIL"⟩⟩) ∧
    Transaction.evaluateResponse ⟨usbPrinterTestNode, [0x1B, 0x00, 'M'.toNat, 3], true,
        .printer, strBytes "FFFF\r", some ⟨⟨1000, 12000⟩, 1, "FAIL"⟩⟩
      = .ok (.ongoing ⟨usbPrinterTestNode, [0x1B, 0x00, 'M'.toNat, 3], false,
          .printer, strBytes "FFFF\r", some ⟨⟨1000, 12000⟩, 0, "FAIL"⟩⟩) :=
  ⟨c10_retry_frame _ ⟨⟨1000, 12000⟩, 1, "FAIL"⟩ (strBytes "FFFF\r") 65535
      rfl (by decide) rfl (Or.inr rfl) rfl rfl (by decide),
   c10_retry_frame _ ⟨⟨1000, 12000⟩, 1, "FAIL"⟩ (strBytes "FFFF\r") 65535
      rfl (by decide) rfl (Or.inl rfl) rfl rfl (by decide)⟩

end Gallivant
